import Mathlib

/-! Satellite telemetry dashboard (`src/frontend/src/App.jsx`)

A shallow embedding of the `App` component: the telemetry loader
(`fetchTelemetryData`), the point analyzer (`handlePointClick`), the anomaly
cursor handlers and the chart datasets (`ChartComponent`).

Conventions of the embedding:

* JavaScript numbers are exact rationals (`ℚ`).  Division by zero yields `0`
  in `ℚ`; JavaScript yields `NaN` there, and both are falsy for `||`.
* `Math.sqrt` is a host function whose results are irrational in general: it
  is an explicit parameter `sqrt : ℚ → ℚ` of every definition that calls it.
  Theorems state the facts about `sqrt` they use; concrete evaluations pass
  `Rat.sqrt`, which is exact on squares of rationals.
* `new Date(ts).getTime()` is a host function too, the parameter `getTime`.
* React state (`useState`) is the record `AppState`; a handler maps the state
  before the event to the state after it.
-/

namespace App

/-! ## Data model -/

/-- One element of `apiData.anomalies` or `apiData.normal`. -/
structure RawRecord where
  timestamp : String
  voltage : ℚ
  signal_strength : ℚ
  apogee : ℚ
  anomaly_score : ℚ
  deriving DecidableEq

/-- An element of `data.points`, as built by `fetchTelemetryData`. -/
structure Point where
  timestamp : String
  voltage : ℚ
  signal_strength : ℚ
  apogee : ℚ
  anomaly_score : ℚ
  x : ℚ
  type : String
  status : String
  deriving DecidableEq

/-- The three values `metricKey` takes at the call sites of `ChartComponent`. -/
inductive MetricKey where
  | voltage
  | signal_strength
  | apogee
  deriving DecidableEq

/-- The property name a `metricKey` stands for. -/
def MetricKey.name : MetricKey → String
  | .voltage => "voltage"
  | .signal_strength => "signal_strength"
  | .apogee => "apogee"

/-- Property access `p[metricKey]`. -/
def Point.get (p : Point) : MetricKey → ℚ
  | .voltage => p.voltage
  | .signal_strength => p.signal_strength
  | .apogee => p.apogee

/-- The `stats` object: an open map from keys to numbers. -/
abbrev Stats := List (String × ℚ)

/-- The `data` state: `{ points, stats }`. -/
structure Data where
  points : List Point
  stats : Stats
  deriving DecidableEq

/-- The object handed to `setSelectedPoint`. -/
structure SelectedPoint where
  timestamp : String
  value : ℚ
  metric : String
  anomaly : Bool
  anomaly_score : ℚ
  zScore : ℚ
  percentile : ℚ
  insights : List String
  deriving DecidableEq

/-- The six `useState` cells of `App`. -/
structure AppState where
  data : Data
  selectedPoint : Option SelectedPoint
  error : Option String
  loading : Bool
  showAnomalyDetails : Bool
  currentAnomalyIndex : ℤ
  deriving DecidableEq

/-- The initial values given to `useState` (lines 28-33). -/
def AppState.initial : AppState where
  data := { points := [], stats := [] }
  selectedPoint := none
  error := none
  loading := true
  showAnomalyDetails := false
  currentAnomalyIndex := 0

/-- An active chart element as Chart.js passes it to `onClick`: the dataset it
belongs to and its position inside that dataset. -/
structure Element where
  datasetIndex : ℕ
  index : ℕ
  deriving DecidableEq

/-! ## Host operations on numbers -/

/-- JavaScript `a || b` on numbers: `a` unless it is falsy (zero). -/
def jsOr (a b : ℚ) : ℚ := if a ≠ 0 then a else b

/-- The expression `stats[key] || 0`: a missing key reads `undefined`. -/
def statOrZero (stats : Stats) (key : String) : ℚ :=
  match stats.lookup key with
  | some v => jsOr v 0
  | none => 0

/-- `Number.prototype.toFixed(digits)` on an exact value below `10^21` in
magnitude: the sign, then the nearest integer `n` to `|x| * 10^digits` (the
larger one on a tie) written in decimal, padded with zeros to at least
`digits + 1` figures, with a point before the last `digits` figures.  (From
`10^21` on JavaScript switches to exponent form, which is not modelled.) -/
def toFixed (x : ℚ) (digits : ℕ) : String :=
  let n : ℕ := (2 * x.num.natAbs * 10 ^ digits + x.den) / (2 * x.den)
  let m := Nat.repr n
  let m := String.mk (List.replicate (digits + 1 - m.length) '0') ++ m
  let m := if digits = 0 then m
    else String.mk (m.data.take (m.length - digits)) ++ "." ++
      String.mk (m.data.drop (m.length - digits))
  (if x < 0 then "-" else "") ++ m

/-! ## The point analyzer: `handlePointClick` -/

/-- Line 88: `const mean = … / data.points.length || (data.stats[…_mean] || 0)`. -/
def mean (data : Data) (metricKey : MetricKey) : ℚ :=
  jsOr ((data.points.foldl (fun sum p => sum + p.get metricKey) 0) / data.points.length)
    (statOrZero data.stats (metricKey.name ++ "_mean"))

/-- Line 89: `const std = Math.sqrt(… / data.points.length) || (data.stats[…_std] || 0)`. -/
def std (sqrt : ℚ → ℚ) (data : Data) (metricKey : MetricKey) : ℚ :=
  jsOr (sqrt ((data.points.foldl
      (fun sum p => sum + (p.get metricKey - mean data metricKey) ^ 2) 0) / data.points.length))
    (statOrZero data.stats (metricKey.name ++ "_std"))

/-- Line 90: `const zScore = std !== 0 ? ((value - mean) / std) : 0`. -/
def zScore (sqrt : ℚ → ℚ) (data : Data) (metricKey : MetricKey) (value : ℚ) : ℚ :=
  if std sqrt data metricKey ≠ 0 then
    (value - mean data metricKey) / std sqrt data metricKey
  else 0

/-- Line 91: `const percentile = data.points.length ? (… / data.points.length) * 100 : 0`. -/
def percentile (data : Data) (metricKey : MetricKey) (value : ℚ) : ℚ :=
  if data.points.length ≠ 0 then
    ((data.points.filter (fun p => decide (p.get metricKey ≤ value))).length : ℚ)
      / data.points.length * 100
  else 0

/-- The unit suffix chosen from the chart title (lines 94-96). -/
def unitOf (title : String) : String :=
  if title = "Apogee (km)" then "km"
  else if title = "Signal Strength (dBm)" then "dBm"
  else "V"

/-- The message pushed on line 94. -/
def significantMsg (value : ℚ) (title : String) (z : ℚ) : String :=
  "🚨 " ++ toFixed value 2 ++ unitOf title ++ " is " ++ toFixed |z| 1 ++
    "σ from mean - significant!"

/-- The message pushed on line 95. -/
def mildMsg (value : ℚ) (title : String) (z : ℚ) : String :=
  "⚠️ " ++ toFixed value 2 ++ unitOf title ++ " is " ++ toFixed |z| 1 ++
    "σ off - mild deviation."

/-- The message pushed on line 96. -/
def normalMsg (value : ℚ) (title : String) (z : ℚ) : String :=
  "✅ " ++ toFixed value 2 ++ unitOf title ++ " is normal (" ++ toFixed z 1 ++ "σ)."

/-- Lines 94-96: the magnitude-of-deviation chain. -/
def magnitudeInsight (value : ℚ) (title : String) (z : ℚ) : List String :=
  if |z| > 2 then [significantMsg value title z]
  else if |z| > 1 then [mildMsg value title z]
  else [normalMsg value title z]

/-- Lines 98-99: the percentile notes. -/
def percentileInsight (pct : ℚ) : List String :=
  if pct > 95 then ["📊 Top 5% - high!"]
  else if pct < 5 then ["📊 Bottom 5% - low!"]
  else []

/-- Lines 101-110: the thresholds selected by the chart title. -/
def thresholdInsight (value : ℚ) (title : String) : List String :=
  if title = "Voltage (V)" then
    if value < 20 then ["🔋 Low voltage - power issues?"]
    else if value > 30 then ["⚡ High voltage - check charger!"]
    else []
  else if title = "Signal Strength (dBm)" then
    if value < 80 then ["📡 Weak signal - communication risk."]
    else if value > 120 then ["📡 Strong signal - optimal."]
    else []
  else if title = "Apogee (km)" then
    if value < 400 then ["🛰️ Low apogee - orbital decay?"]
    else if value > 600 then ["🛰️ High apogee - extended orbit."]
    else []
  else []

/-- Lines 93-110: the `insights` array after all pushes. -/
def insights (value : ℚ) (title : String) (z pct : ℚ) : List String :=
  magnitudeInsight value title z ++ percentileInsight pct ++ thresholdInsight value title

/-- Lines 79-122.  `chart` is unused by the source and omitted. -/
def handlePointClick (sqrt : ℚ → ℚ) (s : AppState) (elements : List Element)
    (metricKey : MetricKey) (title : String) : AppState :=
  match elements with
  | [] => s
  | e :: _ =>
    match s.data.points[e.index]? with
    | none => s
    | some point =>
      let value := point.get metricKey
      let z := zScore sqrt s.data metricKey value
      let pct := percentile s.data metricKey value
      { s with
        selectedPoint := some (SelectedPoint.mk point.timestamp value title
          (decide (point.type = "anomaly")) point.anomaly_score z pct
          (insights value title z pct)) }

/-! ## The telemetry loader: `fetchTelemetryData` -/

/-- The parsed JSON body; each of the three fields may be missing. -/
structure ApiData where
  anomalies : Option (List RawRecord)
  normal : Option (List RawRecord)
  stats : Option Stats
  deriving DecidableEq

/-- A settled `fetch`: the HTTP status and what `await response.json()` gives,
the parsed object or the message of the exception it throws. -/
structure Response where
  status : ℕ
  json : Except String ApiData

/-- The `ok` flag of a response: the status is in the range 200-299. -/
def Response.ok (r : Response) : Bool := decide (200 ≤ r.status ∧ r.status ≤ 299)

/-- What `await fetch(url)` does: it rejects with an error message (network
failure) or resolves to a response. -/
inductive FetchResult where
  | rejected (message : String)
  | resolved (response : Response)

/-- The callbacks of lines 47-56 and 57-66, which differ in `type` and `status`. -/
def toPoint (getTime : String → ℚ) (type status : String) (point : RawRecord) : Point where
  timestamp := point.timestamp
  voltage := point.voltage
  signal_strength := point.signal_strength
  apogee := point.apogee
  anomaly_score := point.anomaly_score
  x := getTime point.timestamp
  type := type
  status := status

/-- Lines 44-67: `processedData`. -/
def processedData (getTime : String → ℚ) (apiData : ApiData) : List Point :=
  let anomalies := apiData.anomalies.getD []
  let normal := apiData.normal.getD []
  anomalies.map (toPoint getTime "anomaly" "Anomaly Detected") ++
    normal.map (toPoint getTime "normal" "Normal Reading")

/-- The body of the `try` block (lines 39-69) up to `setData`: the value given
to `setData`, or the message of the error thrown. -/
def tryFetch (getTime : String → ℚ) (result : FetchResult) : Except String Data :=
  match result with
  | .rejected message => .error message
  | .resolved response =>
    if !response.ok then .error ("HTTP error! status: " ++ Nat.repr response.status)
    else
      match response.json with
      | .error message => .error message
      | .ok apiData =>
        .ok { points := processedData getTime apiData, stats := apiData.stats.getD [] }

/-- Lines 37-75: the state after the effect has run to completion. -/
def fetchTelemetryData (getTime : String → ℚ) (s : AppState) (result : FetchResult) : AppState :=
  let s := { s with loading := true }
  match tryFetch getTime result with
  | .ok data => { s with data := data, loading := false }
  | .error message =>
    { s with error := some ("Failed to load telemetry data: " ++ message), loading := false }

/-! ## Anomaly navigation -/

/-- One entry of `chartData.datasets`: the label and the `{x, y}` pairs. -/
structure Dataset where
  label : String
  data : List (ℚ × ℚ)
  deriving DecidableEq

/-- Line 164: `normalPoints`. -/
def normalPoints (data : Data) : List Point :=
  data.points.filter (fun p => decide (p.type = "normal"))

/-- Line 165: `anomalyPoints`. -/
def anomalyPoints (data : Data) : List Point :=
  data.points.filter (fun p => decide (p.type = "anomaly"))

/-- Lines 167-192: `chartData.datasets`, the normal dataset first. -/
def chartData (data : Data) (metricKey : MetricKey) : List Dataset :=
  [ { label := "Normal"
      data := (normalPoints data).map (fun point => (point.x, point.get metricKey)) },
    { label := "Anomalies"
      data := (anomalyPoints data).map (fun point => (point.x, point.get metricKey)) } ]

/-- The point drawn at a chart element: entry `index` of the list behind
dataset `datasetIndex`. -/
def drawnPoint (data : Data) (e : Element) : Option Point :=
  match e.datasetIndex with
  | 0 => (normalPoints data)[e.index]?
  | 1 => (anomalyPoints data)[e.index]?
  | _ => none

/-- Lines 415-417: the three charts, each with its `metricKey` and `title`. -/
def charts : List (MetricKey × String) :=
  [(.voltage, "Voltage (V)"), (.signal_strength, "Signal Strength (dBm)"),
   (.apogee, "Apogee (km)")]

/-! ## Concrete inputs -/

/-- A point whose three metrics all equal `v`, used in concrete evaluations. -/
def samplePoint (timestamp : String) (v score : ℚ) (type status : String) : Point where
  timestamp := timestamp
  voltage := v
  signal_strength := v
  apogee := v
  anomaly_score := score
  x := 0
  type := type
  status := status

/-- Three points whose metrics all equal `c`, loaded with the given stats. -/
def constantState (c : ℚ) (stats : Stats) : AppState :=
  { AppState.initial with
    data := { points := [samplePoint "t1" c 0 "normal" "Normal Reading",
                samplePoint "t2" c 0 "normal" "Normal Reading",
                samplePoint "t3" c 0 "normal" "Normal Reading"],
              stats := stats }
    loading := false }

/-- Two normal points whose metrics equal `a` and `b`. -/
def twoPoints (a b : ℚ) : List Point :=
  [samplePoint "t1" a 0 "normal" "Normal Reading", samplePoint "t2" b 0 "normal" "Normal Reading"]

/-- A loaded state holding the given points and stats. -/
def loadedState (points : List Point) (stats : Stats) : AppState :=
  { AppState.initial with data := { points := points, stats := stats }, loading := false }

/-! ## Message classes -/

/-- The first character of a string is none of the three magnitude marks. -/
def NotMagnitudeHead (m : String) : Prop :=
  m.data.head? ≠ some '🚨' ∧ m.data.head? ≠ some '⚠' ∧ m.data.head? ≠ some '✅'

/-- The six messages of lines 101-110. -/
def thresholdMessages : List String :=
  ["🔋 Low voltage - power issues?", "⚡ High voltage - check charger!",
   "📡 Weak signal - communication risk.", "📡 Strong signal - optimal.",
   "🛰️ Low apogee - orbital decay?", "🛰️ High apogee - extended orbit."]

/-! ## Further concrete inputs -/

/-- A successful response with one anomaly record and one normal record. -/
def mixedResponse : FetchResult :=
  FetchResult.resolved (Response.mk 200 (Except.ok (ApiData.mk
    (some [RawRecord.mk "2024-01-01T00:00:00Z" 10 90 500 (9 / 10)])
    (some [RawRecord.mk "2024-01-01T00:01:00Z" 25 100 510 (1 / 10)])
    none)))

/-! ## Basic facts -/

theorem handlePointClick_selected (sqrt : ℚ → ℚ) (s : AppState) (e : Element)
    (rest : List Element) (metricKey : MetricKey) (title : String) (point : Point)
    (h : s.data.points[e.index]? = some point) :
    (handlePointClick sqrt s (e :: rest) metricKey title).selectedPoint =
      some (SelectedPoint.mk point.timestamp (point.get metricKey) title
        (decide (point.type = "anomaly")) point.anomaly_score
        (zScore sqrt s.data metricKey (point.get metricKey))
        (percentile s.data metricKey (point.get metricKey))
        (insights (point.get metricKey) title
          (zScore sqrt s.data metricKey (point.get metricKey))
          (percentile s.data metricKey (point.get metricKey)))) := by
  simp [handlePointClick, h]

theorem significantMsg_head (v : ℚ) (t : String) (z : ℚ) :
    (significantMsg v t z).data.head? = some '🚨' := by
  simp [significantMsg, String.data_append]

theorem mildMsg_head (v : ℚ) (t : String) (z : ℚ) :
    (mildMsg v t z).data.head? = some '⚠' := by
  simp [mildMsg, String.data_append]

theorem normalMsg_head (v : ℚ) (t : String) (z : ℚ) :
    (normalMsg v t z).data.head? = some '✅' := by
  simp [normalMsg, String.data_append]

theorem foldl_add_eq_sum (f : Point → ℚ) (points : List Point) (init : ℚ) :
    points.foldl (fun sum p => sum + f p) init = init + (points.map f).sum := by
  induction points generalizing init with
  | nil => simp
  | cons p ps ih => simp [List.foldl_cons, ih, add_assoc]

theorem sum_map_const (f : Point → ℚ) (points : List Point) (c : ℚ)
    (h : ∀ p ∈ points, f p = c) : (points.map f).sum = points.length * c := by
  induction points with
  | nil => simp
  | cons p ps ih =>
    have hp : f p = c := h p (List.mem_cons_self p ps)
    have hps : ∀ q ∈ ps, f q = c := fun q hq => h q (List.mem_cons_of_mem p hq)
    simp [hp, ih hps]
    ring

theorem mean_const (data : Data) (metricKey : MetricKey) (c : ℚ)
    (hlen : (data.points.length : ℚ) ≠ 0)
    (hconst : ∀ p ∈ data.points, p.get metricKey = c)
    (hc : c ≠ 0 ∨ statOrZero data.stats (metricKey.name ++ "_mean") = 0) :
    mean data metricKey = c := by
  unfold mean
  rw [foldl_add_eq_sum, sum_map_const _ _ c hconst, zero_add, mul_div_cancel_left₀ _ hlen]
  unfold jsOr
  rcases hc with hc | hc
  · simp [hc]
  · by_cases h0 : c = 0
    · simp [h0, hc]
    · simp [h0]

theorem magnitudeInsight_cases (value : ℚ) (title : String) (z : ℚ) :
    (|z| > 2 ∧ magnitudeInsight value title z = [significantMsg value title z]) ∨
    (¬ |z| > 2 ∧ |z| > 1 ∧ magnitudeInsight value title z = [mildMsg value title z]) ∨
    (¬ |z| > 2 ∧ ¬ |z| > 1 ∧ magnitudeInsight value title z = [normalMsg value title z]) := by
  unfold magnitudeInsight
  by_cases h2 : |z| > 2
  · exact Or.inl ⟨h2, by rw [if_pos h2]⟩
  · by_cases h1 : |z| > 1
    · exact Or.inr (Or.inl ⟨h2, h1, by rw [if_neg h2, if_pos h1]⟩)
    · exact Or.inr (Or.inr ⟨h2, h1, by rw [if_neg h2, if_neg h1]⟩)

theorem not_magnitude_of_head {m : String} (hm : NotMagnitudeHead m) (v : ℚ) (t : String)
    (z : ℚ) : m ≠ significantMsg v t z ∧ m ≠ mildMsg v t z ∧ m ≠ normalMsg v t z := by
  obtain ⟨h1, h2, h3⟩ := hm
  refine ⟨?_, ?_, ?_⟩
  · intro h; rw [h, significantMsg_head] at h1; exact h1 rfl
  · intro h; rw [h, mildMsg_head] at h2; exact h2 rfl
  · intro h; rw [h, normalMsg_head] at h3; exact h3 rfl

theorem thresholdMessages_heads : ∀ m ∈ thresholdMessages, NotMagnitudeHead m := by
  unfold NotMagnitudeHead
  decide

theorem magnitudeInsight_not_threshold (value : ℚ) (title : String) (z : ℚ) :
    ∀ m ∈ magnitudeInsight value title z, m ∉ thresholdMessages := by
  intro m hm hmem
  have hhead := thresholdMessages_heads m hmem
  rcases magnitudeInsight_cases value title z with ⟨_, hmag⟩ | ⟨_, _, hmag⟩ | ⟨_, _, hmag⟩ <;>
    rw [hmag, List.mem_singleton] at hm
  · exact (not_magnitude_of_head hhead value title z).1 hm
  · exact (not_magnitude_of_head hhead value title z).2.1 hm
  · exact (not_magnitude_of_head hhead value title z).2.2 hm

theorem percentileInsight_not_threshold (pct : ℚ) :
    ∀ m ∈ percentileInsight pct, m ∉ thresholdMessages := by
  intro m hm
  unfold percentileInsight at hm
  split_ifs at hm <;> simp at hm <;> subst hm <;> decide

theorem mem_insights_threshold (value : ℚ) (title : String) (z pct : ℚ) (m : String)
    (hm : m ∈ thresholdMessages) :
    m ∈ insights value title z pct ↔ m ∈ thresholdInsight value title := by
  unfold insights
  rw [List.mem_append, List.mem_append]
  constructor
  · rintro ((h | h) | h)
    · exact absurd hm (magnitudeInsight_not_threshold value title z m h)
    · exact absurd hm (percentileInsight_not_threshold pct m h)
    · exact h
  · exact fun h => Or.inr h

theorem thresholdInsight_length (value : ℚ) (title : String) :
    (thresholdInsight value title).length ≤ 1 := by
  unfold thresholdInsight
  split_ifs <;> simp

theorem countP_threshold_insights (value : ℚ) (title : String) (z pct : ℚ) :
    (insights value title z pct).countP (fun m => decide (m ∈ thresholdMessages)) =
      (thresholdInsight value title).countP (fun m => decide (m ∈ thresholdMessages)) := by
  unfold insights
  rw [List.countP_append, List.countP_append]
  have h1 : (magnitudeInsight value title z).countP
      (fun m => decide (m ∈ thresholdMessages)) = 0 := by
    rw [List.countP_eq_zero]
    intro m hm
    simpa using magnitudeInsight_not_threshold value title z m hm
  have h2 : (percentileInsight pct).countP (fun m => decide (m ∈ thresholdMessages)) = 0 := by
    rw [List.countP_eq_zero]
    intro m hm
    simpa using percentileInsight_not_threshold pct m hm
  rw [h1, h2]
  simp

theorem thresholdInsight_voltage (value : ℚ) :
    thresholdInsight value "Voltage (V)" =
      if value < 20 then ["🔋 Low voltage - power issues?"]
      else if value > 30 then ["⚡ High voltage - check charger!"]
      else [] := by
  unfold thresholdInsight
  rw [if_pos rfl]

theorem thresholdInsight_signal (value : ℚ) :
    thresholdInsight value "Signal Strength (dBm)" =
      if value < 80 then ["📡 Weak signal - communication risk."]
      else if value > 120 then ["📡 Strong signal - optimal."]
      else [] := by
  unfold thresholdInsight
  rw [if_neg (by decide), if_pos rfl]

theorem thresholdInsight_apogee (value : ℚ) :
    thresholdInsight value "Apogee (km)" =
      if value < 400 then ["🛰️ Low apogee - orbital decay?"]
      else if value > 600 then ["🛰️ High apogee - extended orbit."]
      else [] := by
  unfold thresholdInsight
  rw [if_neg (by decide), if_neg (by decide), if_pos rfl]

theorem zScore_const (sqrt : ℚ → ℚ) (data : Data) (metricKey : MetricKey)
    (c : ℚ) (hlen : (data.points.length : ℚ) ≠ 0)
    (hconst : ∀ p ∈ data.points, p.get metricKey = c) (hc : c ≠ 0) :
    zScore sqrt data metricKey c = 0 := by
  have hmean := mean_const data metricKey c hlen hconst (Or.inl hc)
  unfold zScore
  rw [hmean]
  simp

theorem normalMsg_ten : normalMsg 10 "Voltage (V)" 0 = "✅ 10.00V is normal (0.0σ)." := by
  decide

theorem constantState_point (c : ℚ) (stats : Stats) (i : ℕ) (hi : i < 3) :
    ∃ point, (constantState c stats).data.points[i]? = some point ∧
      point.get MetricKey.voltage = c := by
  interval_cases i
  · exact ⟨samplePoint "t1" c 0 "normal" "Normal Reading", rfl, rfl⟩
  · exact ⟨samplePoint "t2" c 0 "normal" "Normal Reading", rfl, rfl⟩
  · exact ⟨samplePoint "t3" c 0 "normal" "Normal Reading", rfl, rfl⟩

/-- C5: on each of the three charts the insight list of an analysis holds at
most one threshold message, fixed by the metric and the value: "low voltage"
iff voltage `< 20`, "high voltage" iff voltage `> 30`, "weak signal" iff signal
strength `< 80`, "strong signal" iff `> 120`, "low apogee" iff apogee `< 400`,
"high apogee" iff `> 600`, and none for a value inside `[20,30]`, `[80,120]`,
`[400,600]`.  For the voltage collection `[10,10,10]` the insights of any
point hold both the "normal (0.0σ)" and the "Low voltage" message. -/
theorem C5_threshold_insight :
    (∀ (sqrt : ℚ → ℚ) (s : AppState) (e : Element) (rest : List Element)
        (metricKey : MetricKey) (title : String) (point : Point),
      s.data.points[e.index]? = some point → (metricKey, title) ∈ charts →
      ∃ a, (handlePointClick sqrt s (e :: rest) metricKey title).selectedPoint = some a ∧
        a.value = point.get metricKey ∧
        a.insights.countP (fun m => decide (m ∈ thresholdMessages)) ≤ 1 ∧
        ("🔋 Low voltage - power issues?" ∈ a.insights ↔
          metricKey = MetricKey.voltage ∧ a.value < 20) ∧
        ("⚡ High voltage - check charger!" ∈ a.insights ↔
          metricKey = MetricKey.voltage ∧ a.value > 30) ∧
        ("📡 Weak signal - communication risk." ∈ a.insights ↔
          metricKey = MetricKey.signal_strength ∧ a.value < 80) ∧
        ("📡 Strong signal - optimal." ∈ a.insights ↔
          metricKey = MetricKey.signal_strength ∧ a.value > 120) ∧
        ("🛰️ Low apogee - orbital decay?" ∈ a.insights ↔
          metricKey = MetricKey.apogee ∧ a.value < 400) ∧
        ("🛰️ High apogee - extended orbit." ∈ a.insights ↔
          metricKey = MetricKey.apogee ∧ a.value > 600) ∧
        ((metricKey = MetricKey.voltage ∧ 20 ≤ a.value ∧ a.value ≤ 30) ∨
          (metricKey = MetricKey.signal_strength ∧ 80 ≤ a.value ∧ a.value ≤ 120) ∨
          (metricKey = MetricKey.apogee ∧ 400 ≤ a.value ∧ a.value ≤ 600) →
          ∀ m ∈ a.insights, m ∉ thresholdMessages)) ∧
    (∀ (sqrt : ℚ → ℚ) (stats : Stats) (e : Element) (rest : List Element), e.index < 3 →
      ∃ a, (handlePointClick sqrt (constantState 10 stats) (e :: rest) MetricKey.voltage
          "Voltage (V)").selectedPoint = some a ∧
        "✅ 10.00V is normal (0.0σ)." ∈ a.insights ∧
        "🔋 Low voltage - power issues?" ∈ a.insights) := by
  constructor
  · intro sqrt s e rest metricKey title point h hchart
    refine ⟨_, handlePointClick_selected sqrt s e rest metricKey title point h, rfl, ?_⟩
    simp only []
    generalize zScore sqrt s.data metricKey (point.get metricKey) = z
    generalize percentile s.data metricKey (point.get metricKey) = pct
    generalize point.get metricKey = value
    refine ⟨?_, ?_⟩
    · rw [countP_threshold_insights]
      exact le_trans (List.countP_le_length _) (thresholdInsight_length value title)
    · rw [mem_insights_threshold value title z pct _ (by decide),
        mem_insights_threshold value title z pct _ (by decide),
        mem_insights_threshold value title z pct _ (by decide),
        mem_insights_threshold value title z pct _ (by decide),
        mem_insights_threshold value title z pct _ (by decide),
        mem_insights_threshold value title z pct _ (by decide)]
      have hin : (thresholdInsight value title = []) →
          ∀ m ∈ insights value title z pct, m ∉ thresholdMessages := by
        intro hnil m hm hmem
        have := (mem_insights_threshold value title z pct m hmem).mp hm
        rw [hnil] at this
        exact absurd this (List.not_mem_nil m)
      simp only [charts, List.mem_cons, Prod.mk.injEq, List.mem_singleton, List.not_mem_nil,
        or_false] at hchart
      rcases hchart with ⟨rfl, rfl⟩ | ⟨rfl, rfl⟩ | ⟨rfl, rfl⟩
      · rw [thresholdInsight_voltage] at hin ⊢
        refine ⟨?_, ?_, ?_, ?_, ?_, ?_, ?_⟩
        · split_ifs <;> simp_all
        · split_ifs with h1 h2 <;> simp_all
          linarith
        · split_ifs <;> simp
        · split_ifs <;> simp
        · split_ifs <;> simp
        · split_ifs <;> simp
        · rintro (⟨_, h1, h2⟩ | ⟨hk, _⟩ | ⟨hk, _⟩)
          · exact hin (by rw [if_neg (not_lt.mpr h1), if_neg (not_lt.mpr h2)])
          · exact absurd hk (by decide)
          · exact absurd hk (by decide)
      · rw [thresholdInsight_signal] at hin ⊢
        refine ⟨?_, ?_, ?_, ?_, ?_, ?_, ?_⟩
        · split_ifs <;> simp
        · split_ifs <;> simp
        · split_ifs <;> simp_all
        · split_ifs with h1 h2 <;> simp_all
          linarith
        · split_ifs <;> simp
        · split_ifs <;> simp
        · rintro (⟨hk, _⟩ | ⟨_, h1, h2⟩ | ⟨hk, _⟩)
          · exact absurd hk (by decide)
          · exact hin (by rw [if_neg (not_lt.mpr h1), if_neg (not_lt.mpr h2)])
          · exact absurd hk (by decide)
      · rw [thresholdInsight_apogee] at hin ⊢
        refine ⟨?_, ?_, ?_, ?_, ?_, ?_, ?_⟩
        · split_ifs <;> simp
        · split_ifs <;> simp
        · split_ifs <;> simp
        · split_ifs <;> simp
        · split_ifs <;> simp_all
        · split_ifs with h1 h2 <;> simp_all
          linarith
        · rintro (⟨hk, _⟩ | ⟨hk, _⟩ | ⟨_, h1, h2⟩)
          · exact absurd hk (by decide)
          · exact absurd hk (by decide)
          · exact hin (by rw [if_neg (not_lt.mpr h1), if_neg (not_lt.mpr h2)])
  · intro sqrt stats e rest hi
    obtain ⟨point, hpoint, hval⟩ := constantState_point 10 stats e.index hi
    refine ⟨_, handlePointClick_selected sqrt _ e rest MetricKey.voltage "Voltage (V)"
      point hpoint, ?_⟩
    simp only [hval]
    have hz : zScore sqrt (constantState 10 stats).data MetricKey.voltage 10 = 0 :=
      zScore_const sqrt _ _ 10 (by norm_num [constantState])
        (by simp [constantState, samplePoint, Point.get]) (by norm_num)
    rw [hz]
    unfold insights
    constructor
    · apply List.mem_append_left
      apply List.mem_append_left
      unfold magnitudeInsight
      rw [if_neg (by norm_num), if_neg (by norm_num), normalMsg_ten]
      exact List.mem_singleton_self _
    · apply List.mem_append_right
      rw [thresholdInsight_voltage, if_pos (by norm_num)]
      exact List.mem_singleton_self _

/-- C5 at a concrete click: voltages `[10,10,10]`, the first point clicked. -/
theorem C5_threshold_insight_witness :
    ∃ a, (handlePointClick Rat.sqrt (constantState 10 []) [Element.mk 0 0]
        MetricKey.voltage "Voltage (V)").selectedPoint = some a ∧
      "🔋 Low voltage - power issues?" ∈ a.insights := by
  obtain ⟨a, ha, hv, _, hlow, _⟩ := C5_threshold_insight.1 Rat.sqrt (constantState 10 [])
    (Element.mk 0 0) [] MetricKey.voltage "Voltage (V)"
    (samplePoint "t1" 10 0 "normal" "Normal Reading") rfl (by simp [charts])
  refine ⟨a, ha, hlow.mpr ⟨rfl, ?_⟩⟩
  rw [hv]
  norm_num [samplePoint, Point.get]

theorem thresholdInsight_mem (value : ℚ) (title : String) :
    ∀ m ∈ thresholdInsight value title, m ∈ thresholdMessages := by
  intro m hm
  unfold thresholdInsight at hm
  split_ifs at hm <;> simp at hm <;> subst hm <;> decide

theorem mem_insights_percentile (value : ℚ) (title : String) (z pct : ℚ) (m : String)
    (hhead : NotMagnitudeHead m) (hm : m ∉ thresholdMessages) :
    m ∈ insights value title z pct ↔ m ∈ percentileInsight pct := by
  unfold insights
  rw [List.mem_append, List.mem_append]
  constructor
  · rintro ((h | h) | h)
    · exfalso
      rcases magnitudeInsight_cases value title z with ⟨_, hmag⟩ | ⟨_, _, hmag⟩ | ⟨_, _, hmag⟩ <;>
        rw [hmag, List.mem_singleton] at h
      · exact (not_magnitude_of_head hhead value title z).1 h
      · exact (not_magnitude_of_head hhead value title z).2.1 h
      · exact (not_magnitude_of_head hhead value title z).2.2 h
    · exact h
    · exact absurd (thresholdInsight_mem value title m h) hm
  · exact fun h => Or.inl (Or.inr h)

theorem top_mem_percentileInsight (pct : ℚ) :
    "📊 Top 5% - high!" ∈ percentileInsight pct ↔ pct > 95 := by
  unfold percentileInsight
  split_ifs with h1 h2 <;> simp_all

theorem bottom_mem_percentileInsight (pct : ℚ) :
    "📊 Bottom 5% - low!" ∈ percentileInsight pct ↔ pct < 5 := by
  unfold percentileInsight
  split_ifs with h1 h2
  · simp only [List.mem_singleton]
    constructor
    · intro h; exact absurd h (by decide)
    · intro h; linarith
  · simp [h2]
  · simp [h2]

theorem magnitudeInsight_singleton (value : ℚ) (title : String) (z : ℚ) :
    ∃ mag, magnitudeInsight value title z = [mag] := by
  rcases magnitudeInsight_cases value title z with ⟨_, hmag⟩ | ⟨_, _, hmag⟩ | ⟨_, _, hmag⟩ <;>
    exact ⟨_, hmag⟩

/-- C6: in every analysis produced by `handlePointClick` the "top 5%" note is
in the insight list iff `percentile > 95` and the "bottom 5%" note iff
`percentile < 5`; the two never appear together; neither condition involves
the z-score, so the magnitude message chosen has no influence; a note that is
present is the second entry, right after the magnitude message and before the
threshold insights. -/
theorem C6_percentile_note (sqrt : ℚ → ℚ) (s : AppState) (e : Element)
    (rest : List Element) (metricKey : MetricKey) (title : String) (point : Point)
    (h : s.data.points[e.index]? = some point) :
    ∃ a, (handlePointClick sqrt s (e :: rest) metricKey title).selectedPoint = some a ∧
      ("📊 Top 5% - high!" ∈ a.insights ↔ a.percentile > 95) ∧
      ("📊 Bottom 5% - low!" ∈ a.insights ↔ a.percentile < 5) ∧
      ¬ ("📊 Top 5% - high!" ∈ a.insights ∧ "📊 Bottom 5% - low!" ∈ a.insights) ∧
      (∀ z : ℚ,
        ("📊 Top 5% - high!" ∈ insights a.value title z a.percentile ↔
          "📊 Top 5% - high!" ∈ a.insights) ∧
        ("📊 Bottom 5% - low!" ∈ insights a.value title z a.percentile ↔
          "📊 Bottom 5% - low!" ∈ a.insights)) ∧
      (a.percentile > 95 → ∃ mag, magnitudeInsight a.value title a.zScore = [mag] ∧
        a.insights = mag :: "📊 Top 5% - high!" :: thresholdInsight a.value title) ∧
      (a.percentile < 5 → ∃ mag, magnitudeInsight a.value title a.zScore = [mag] ∧
        a.insights = mag :: "📊 Bottom 5% - low!" :: thresholdInsight a.value title) := by
  refine ⟨_, handlePointClick_selected sqrt s e rest metricKey title point h, ?_⟩
  simp only []
  generalize zScore sqrt s.data metricKey (point.get metricKey) = z
  generalize percentile s.data metricKey (point.get metricKey) = pct
  generalize point.get metricKey = value
  have htop : ∀ z' : ℚ, "📊 Top 5% - high!" ∈ insights value title z' pct ↔ pct > 95 := by
    intro z'
    rw [mem_insights_percentile value title z' pct _ (by unfold NotMagnitudeHead; decide)
      (by decide)]
    exact top_mem_percentileInsight pct
  have hbot : ∀ z' : ℚ, "📊 Bottom 5% - low!" ∈ insights value title z' pct ↔ pct < 5 := by
    intro z'
    rw [mem_insights_percentile value title z' pct _ (by unfold NotMagnitudeHead; decide)
      (by decide)]
    exact bottom_mem_percentileInsight pct
  obtain ⟨mag, hmag⟩ := magnitudeInsight_singleton value title z
  refine ⟨htop z, hbot z, ?_, ?_, ?_, ?_⟩
  · rw [htop z, hbot z]
    intro hh
    linarith [hh.1, hh.2]
  · intro z'
    exact ⟨by rw [htop z', htop z], by rw [hbot z', hbot z]⟩
  · intro hp
    refine ⟨mag, hmag, ?_⟩
    unfold insights percentileInsight
    rw [hmag, if_pos hp]
    rfl
  · intro hp
    refine ⟨mag, hmag, ?_⟩
    unfold insights percentileInsight
    rw [hmag, if_neg (by linarith), if_pos hp]
    rfl

/-- C6 at a concrete click: voltages `[1, 3]`, the second point clicked, whose
percentile is `100`. -/
theorem C6_percentile_note_witness :
    ∃ a, (handlePointClick Rat.sqrt (loadedState (twoPoints 1 3) []) [Element.mk 0 1]
        MetricKey.voltage "Voltage (V)").selectedPoint = some a ∧
      ("📊 Top 5% - high!" ∈ a.insights ↔ a.percentile > 95) := by
  obtain ⟨a, ha, htop, _⟩ := C6_percentile_note Rat.sqrt (loadedState (twoPoints 1 3) [])
    (Element.mk 0 1) [] MetricKey.voltage "Voltage (V)"
    (samplePoint "t2" 3 0 "normal" "Normal Reading") rfl
  exact ⟨a, ha, htop⟩

theorem fetch_success (getTime : String → ℚ) (s : AppState) (status : ℕ)
    (hok : 200 ≤ status ∧ status ≤ 299) (apiData : ApiData) :
    fetchTelemetryData getTime s (FetchResult.resolved (Response.mk status (Except.ok apiData))) =
      { s with
        data := { points := processedData getTime apiData, stats := apiData.stats.getD [] }
        loading := false } := by
  simp [fetchTelemetryData, tryFetch, Response.ok, hok]

/-- C7: after a successful response whose body has the anomalies list `A` and
the normal list `N` (a missing field counting as empty), the point collection
has length `|A| + |N|`; entry `i < |A|` is record `i` of `A` tagged
`'anomaly'`, entry `|A| + j` is record `j` of `N` tagged `'normal'`, with
timestamp, voltage, signal_strength, apogee and anomaly_score copied; a
missing stats field is stored as the empty map; one anomaly record and one
normal record give a collection of length 2 with the anomaly first. -/
theorem C7_loader_merge (getTime : String → ℚ) (s : AppState) (status : ℕ)
    (hok : 200 ≤ status ∧ status ≤ 299) :
    (∀ apiData : ApiData,
      (fetchTelemetryData getTime s (FetchResult.resolved
          (Response.mk status (Except.ok apiData)))).data.points.length =
        (apiData.anomalies.getD []).length + (apiData.normal.getD []).length ∧
      (∀ (i : ℕ) (r : RawRecord), (apiData.anomalies.getD [])[i]? = some r →
        ∃ p, (fetchTelemetryData getTime s (FetchResult.resolved
            (Response.mk status (Except.ok apiData)))).data.points[i]? = some p ∧
          p.type = "anomaly" ∧ p.timestamp = r.timestamp ∧ p.voltage = r.voltage ∧
          p.signal_strength = r.signal_strength ∧ p.apogee = r.apogee ∧
          p.anomaly_score = r.anomaly_score) ∧
      (∀ (j : ℕ) (r : RawRecord), (apiData.normal.getD [])[j]? = some r →
        ∃ p, (fetchTelemetryData getTime s (FetchResult.resolved
            (Response.mk status (Except.ok apiData)))).data.points[
              (apiData.anomalies.getD []).length + j]? = some p ∧
          p.type = "normal" ∧ p.timestamp = r.timestamp ∧ p.voltage = r.voltage ∧
          p.signal_strength = r.signal_strength ∧ p.apogee = r.apogee ∧
          p.anomaly_score = r.anomaly_score) ∧
      (fetchTelemetryData getTime s (FetchResult.resolved
          (Response.mk status (Except.ok apiData)))).data.stats = apiData.stats.getD [] ∧
      (apiData.stats = none →
        (fetchTelemetryData getTime s (FetchResult.resolved
          (Response.mk status (Except.ok apiData)))).data.stats = [])) ∧
    (∀ (a n : RawRecord) (stats : Option Stats),
      (fetchTelemetryData getTime s (FetchResult.resolved (Response.mk status
          (Except.ok (ApiData.mk (some [a]) (some [n]) stats))))).data.points.length = 2 ∧
      ((fetchTelemetryData getTime s (FetchResult.resolved (Response.mk status
          (Except.ok (ApiData.mk (some [a]) (some [n]) stats))))).data.points.map
        (fun p => (p.type, p.timestamp))) =
        [("anomaly", a.timestamp), ("normal", n.timestamp)]) := by
  constructor
  · intro apiData
    rw [fetch_success getTime s status hok apiData]
    simp only [processedData]
    refine ⟨by simp, ?_, ?_, by trivial, ?_⟩
    · intro i r hr
      refine ⟨toPoint getTime "anomaly" "Anomaly Detected" r, ?_, rfl, rfl, rfl, rfl, rfl, rfl⟩
      have hi : i < ((apiData.anomalies.getD []).map
          (toPoint getTime "anomaly" "Anomaly Detected")).length := by
        rw [List.length_map]
        exact (List.getElem?_eq_some.mp hr).1
      rw [List.getElem?_append_left hi, List.getElem?_map, hr]
      rfl
    · intro j r hr
      refine ⟨toPoint getTime "normal" "Normal Reading" r, ?_, rfl, rfl, rfl, rfl, rfl, rfl⟩
      have hlen : ((apiData.anomalies.getD []).map
          (toPoint getTime "anomaly" "Anomaly Detected")).length ≤
          (apiData.anomalies.getD []).length + j := by
        rw [List.length_map]
        exact Nat.le_add_right _ _
      rw [List.getElem?_append_right hlen, List.length_map, Nat.add_sub_cancel_left,
        List.getElem?_map, hr]
      rfl
    · intro hnone
      simp [hnone]
  · intro a n stats
    rw [fetch_success getTime s status hok]
    simp [processedData, toPoint]

/-- C7 at a concrete response: status 200, one anomaly record, one normal
record, no stats field. -/
theorem C7_loader_merge_witness :
    ((fetchTelemetryData (fun _ => 0) AppState.initial (FetchResult.resolved (Response.mk 200
        (Except.ok (ApiData.mk (some [RawRecord.mk "t0" 10 90 500 (9 / 10)])
          (some [RawRecord.mk "t1" 25 100 510 (1 / 10)]) none))))).data.points.map
      (fun p => (p.type, p.timestamp))) = [("anomaly", "t0"), ("normal", "t1")] :=
  ((C7_loader_merge (fun _ => 0) AppState.initial 200 (by decide)).2
    (RawRecord.mk "t0" 10 90 500 (9 / 10)) (RawRecord.mk "t1" 25 100 510 (1 / 10)) none).2

/-- C8: when `fetch` rejects or the response has a non-success status, the
loader ends with the error message set, `loading` false and `data` untouched,
so from the initial state the point collection and the stats stay empty; a
status of 500 gives the message `Failed to load telemetry data: HTTP error!
status: 500`; after a successful response the error is what it was before
(unset from the initial state) and `loading` is false. -/
theorem C8_loader_failure (getTime : String → ℚ) (s : AppState) :
    (∀ message : String,
      (fetchTelemetryData getTime s (FetchResult.rejected message)).error =
          some ("Failed to load telemetry data: " ++ message) ∧
        (fetchTelemetryData getTime s (FetchResult.rejected message)).loading = false ∧
        (fetchTelemetryData getTime s (FetchResult.rejected message)).data = s.data) ∧
    (∀ response : Response, response.ok = false →
      (fetchTelemetryData getTime s (FetchResult.resolved response)).error =
          some ("Failed to load telemetry data: " ++
            ("HTTP error! status: " ++ Nat.repr response.status)) ∧
        (fetchTelemetryData getTime s (FetchResult.resolved response)).loading = false ∧
        (fetchTelemetryData getTime s (FetchResult.resolved response)).data = s.data) ∧
    (∀ json : Except String ApiData,
      (fetchTelemetryData getTime AppState.initial
          (FetchResult.resolved (Response.mk 500 json))).error =
          some "Failed to load telemetry data: HTTP error! status: 500" ∧
        (fetchTelemetryData getTime AppState.initial
          (FetchResult.resolved (Response.mk 500 json))).loading = false ∧
        (fetchTelemetryData getTime AppState.initial
          (FetchResult.resolved (Response.mk 500 json))).data.points = [] ∧
        (fetchTelemetryData getTime AppState.initial
          (FetchResult.resolved (Response.mk 500 json))).data.stats = []) ∧
    (∀ message : String,
      (fetchTelemetryData getTime AppState.initial (FetchResult.rejected message)).data.points
          = [] ∧
        (fetchTelemetryData getTime AppState.initial (FetchResult.rejected message)).data.stats
          = []) ∧
    (∀ (response : Response) (apiData : ApiData), response.ok = true →
      response.json = Except.ok apiData →
      (fetchTelemetryData getTime s (FetchResult.resolved response)).error = s.error ∧
        (fetchTelemetryData getTime AppState.initial (FetchResult.resolved response)).error
          = none ∧
        (fetchTelemetryData getTime s (FetchResult.resolved response)).loading = false) := by
  refine ⟨?_, ?_, ?_, ?_, ?_⟩
  · intro message
    simp [fetchTelemetryData, tryFetch]
  · intro response hok
    simp [fetchTelemetryData, tryFetch, hok]
  · intro json
    have h500 : (Response.mk 500 json).ok = false := by simp [Response.ok]
    have hrepr : "Failed to load telemetry data: " ++ ("HTTP error! status: " ++ Nat.repr 500)
        = "Failed to load telemetry data: HTTP error! status: 500" := by decide
    simp only [fetchTelemetryData, tryFetch, h500, Bool.not_false, if_true]
    rw [hrepr]
    exact ⟨by trivial, by trivial, by trivial, by trivial⟩
  · intro message
    simp [fetchTelemetryData, tryFetch, AppState.initial]
  · intro response apiData hok hjson
    simp [fetchTelemetryData, tryFetch, hok, hjson, AppState.initial]

/-- C8 at a concrete response: status 503 with a body that would parse. -/
theorem C8_loader_failure_witness :
    (fetchTelemetryData (fun _ => 0) AppState.initial (FetchResult.resolved (Response.mk 503
        (Except.ok (ApiData.mk (some [RawRecord.mk "t0" 10 90 500 (9 / 10)]) none none))))).data
      = AppState.initial.data :=
  ((C8_loader_failure (fun _ => 0) AppState.initial).2.1 (Response.mk 503
    (Except.ok (ApiData.mk (some [RawRecord.mk "t0" 10 90 500 (9 / 10)]) none none)))
    (by decide)).2.2

/-- C10 (failing input): after loading one anomaly record (voltage 10, score
0.9) and one normal record (voltage 25, score 0.1), the voltage chart draws
the normal record at position 0 of dataset 0; a click on that element makes
`handlePointClick` read `data.points[0]`, the anomaly record, so the analysis
carries the anomaly's timestamp, value 10, anomaly flag `true` and score 0.9
instead of those of the clicked point. -/
theorem C10_click_reads_merged_index (getTime : String → ℚ) (sqrt : ℚ → ℚ) :
    drawnPoint (fetchTelemetryData getTime AppState.initial mixedResponse).data
        (Element.mk 0 0) =
      some (toPoint getTime "normal" "Normal Reading"
        (RawRecord.mk "2024-01-01T00:01:00Z" 25 100 510 (1 / 10))) ∧
    ((chartData (fetchTelemetryData getTime AppState.initial mixedResponse).data
        MetricKey.voltage)[0]?.bind (fun d => d.data[0]?)) =
      some (getTime "2024-01-01T00:01:00Z", 25) ∧
    ((handlePointClick sqrt (fetchTelemetryData getTime AppState.initial mixedResponse)
        [Element.mk 0 0] MetricKey.voltage "Voltage (V)").selectedPoint.map
      (fun a => (a.timestamp, a.value, a.anomaly, a.anomaly_score))) =
      some ("2024-01-01T00:00:00Z", 10, true, 9 / 10) := by
  have hload : fetchTelemetryData getTime AppState.initial mixedResponse =
      { AppState.initial with
        data := { points := [toPoint getTime "anomaly" "Anomaly Detected"
                      (RawRecord.mk "2024-01-01T00:00:00Z" 10 90 500 (9 / 10)),
                    toPoint getTime "normal" "Normal Reading"
                      (RawRecord.mk "2024-01-01T00:01:00Z" 25 100 510 (1 / 10))],
                  stats := [] }
        loading := false } := by
    unfold mixedResponse
    rw [fetch_success getTime AppState.initial 200 (by decide)]
    rfl
  rw [hload]
  refine ⟨?_, ?_, ?_⟩
  · simp [drawnPoint, normalPoints, toPoint]
  · simp [chartData, normalPoints, toPoint, Point.get]
  · rw [handlePointClick_selected sqrt _ (Element.mk 0 0) [] MetricKey.voltage "Voltage (V)"
      (toPoint getTime "anomaly" "Anomaly Detected"
        (RawRecord.mk "2024-01-01T00:00:00Z" 10 90 500 (9 / 10))) (by rfl)]
    simp [toPoint, Point.get]

end App
